import Mathlib

/-
Verification development for the WhatsApp / Voiceflow relay webhook.

The repository contains two variants of the relay:
  * src/unnamed/part_000 : complete file (namespace P0 below);
  * src/index.js         : file truncated inside handleCarousel
    (namespace Idx below; the missing tail of handleCarousel and the
    missing handleChoiceButtons / handleCardV2 bodies are modelled from
    the specification, as marked on each definition).

JavaScript strings are modelled as lists of characters (type Str).
Every network send is recorded as an explicit event; a send can fail,
which models the corresponding axios call throwing.  Failure patterns
are supplied through an oracle indexed by the running send counter.
-/

/-- JavaScript string, modelled as a list of characters. -/
abbrev Str := List Char

/-- Whitespace characters recognised by the model of String.prototype.trim
(the common ASCII subset used by every input considered here). -/
def isWS (c : Char) : Bool :=
  c == ' ' || c == '\n' || c == '\t' || c == '\r' || c == '\x0b' || c == '\x0c'

/-- Line terminators, which the JavaScript regular-expression dot does not
match: LF, CR, LINE SEPARATOR, PARAGRAPH SEPARATOR. -/
def isLT (c : Char) : Bool :=
  c == '\n' || c == '\r' || c.toNat == 0x2028 || c.toNat == 0x2029

/-- True when the string is empty or whitespace-only, i.e. when
s.trim() is falsy in JavaScript. -/
def isBlank (s : Str) : Bool := s.all isWS

/-- Model of String.prototype.trim. -/
def trimStr (s : Str) : Str :=
  ((s.dropWhile isWS).reverse.dropWhile isWS).reverse

/-- JavaScript x || d for a possibly-absent string x: the default is used
when x is undefined or the empty string. -/
def jsOr (o : Option Str) (d : Str) : Str :=
  match o with
  | some v => if v.isEmpty then d else v
  | none => d

/-- JavaScript x || two-quote empty string. -/
def jsOrE (o : Option Str) : Str := jsOr o []

/-- Truthiness of a possibly-absent string. -/
def truthy : Option Str → Bool
  | some v => !v.isEmpty
  | none => false

/-- Decimal rendering of a number, for the template literals that build
default option labels. -/
def natStr (n : Nat) : Str := Nat.toDigits 10 n

/-- The map((x, i) => f) idiom of the source, carrying the running index. -/
def mapIdxFrom (f : Nat → α → β) : Nat → List α → List β
  | _, [] => []
  | i, a :: as => f i a :: mapIdxFrom f (i + 1) as

/-! ## Data model: traces and platform messages -/

/-- A button inside a choice trace payload: button.name and
button.request?.payload?.label. -/
structure Button where
  name : Option Str
  label : Option Str
deriving DecidableEq

/-- A card inside a carousel trace payload. -/
structure Card where
  title : Option Str
  description : Option Str
  imageUrl : Option Str
deriving DecidableEq

/-- Payload of a carousel trace. -/
structure CarouselPayload where
  title : Option Str
  cards : List Card
deriving DecidableEq

/-- Payload of a choice trace. -/
structure ChoicePayload where
  message : Option Str
  buttons : List Button
deriving DecidableEq

/-- Payload of a cardV2 trace. -/
structure CardV2Payload where
  title : Option Str
  description : Option Str
  text : Option Str
deriving DecidableEq

/-- One unit of the dialogue-backend response.  Absent payload fields are
modelled with Option; a trace whose payload object is missing behaves like
one with all fields absent wherever the code guards on the fields. -/
inductive Trace where
  | text (message : Option Str)
  | speak (message : Option Str)
  | visual (image : Option Str) (caption : Option Str)
  | carousel (payload : CarouselPayload)
  | choice (payload : ChoicePayload)
  | cardV2 (payload : Option CardV2Payload)
  | image (imageURL : Option Str) (caption : Option Str)
  | other
deriving DecidableEq

/-- An interactive reply button on the wire; the id is
btn_(index)_(Date.now()). -/
structure WAButton where
  idIndex : Nat
  idStamp : Nat
  title : Str
deriving DecidableEq

/-- One selectable row of an interactive list; the id is
(tag)_(index)_(Date.now()). -/
structure WARow where
  idTag : Str
  idIndex : Nat
  idStamp : Nat
  title : Str
  description : Str
deriving DecidableEq

/-- One section of an interactive list. -/
structure WASection where
  title : Str
  rows : List WARow
deriving DecidableEq

/-- One outbound platform message.  The caption of an image message is the
empty string when the caption field is omitted. -/
inductive WAMessage where
  | text (body : Str)
  | image (link : Str) (caption : Str)
  | buttons (body : Str) (buttons : List WAButton)
  | list (header : Str) (body : Str) (buttonLabel : Str) (sections : List WASection)
deriving DecidableEq

/-- Observable effects of the pipeline: an attempted outbound send together
with its outcome, a timed pause, the typing indicator, and one dialogue
backend call carrying the attempt number and the utterance. -/
inductive Event where
  | send (m : WAMessage) (ok : Bool)
  | delay (ms : Nat)
  | typing
  | vfCall (attempt : Nat) (input : Str)
deriving DecidableEq

/-- State threaded through the effectful part_000 model: the number of send
attempts so far (feeding the failure oracle) and the event log. -/
structure S where
  ctr : Nat
  log : List Event
deriving DecidableEq

/-- Failure oracle: whether the n-th outbound send attempt succeeds. -/
abbrev Oracle := Nat → Bool

/-- The oracle under which every outbound send succeeds. -/
def allOk : Oracle := fun _ => true

/-- Record a non-send event. -/
def emit (e : Event) (s : S) : S := ⟨s.ctr, s.log ++ [e]⟩

/-- One outbound send attempt: the event is always logged, and the boolean
result tells whether the axios call succeeded or threw. -/
def attemptSend (ok : Oracle) (m : WAMessage) (s : S) : S × Bool :=
  (⟨s.ctr + 1, s.log ++ [Event.send m (ok s.ctr)]⟩, ok s.ctr)

/-- The messages of all send attempts in a log, in order, successful or not. -/
def sentMsgs (evs : List Event) : List WAMessage :=
  evs.filterMap fun e =>
    match e with
    | Event.send m _ => some m
    | _ => none

def isTextMsg : WAMessage → Bool
  | WAMessage.text _ => true
  | _ => false

def isImageMsg : WAMessage → Bool
  | WAMessage.image _ _ => true
  | _ => false

def isButtonsMsg : WAMessage → Bool
  | WAMessage.buttons _ _ => true
  | _ => false

def isListMsg : WAMessage → Bool
  | WAMessage.list _ _ _ _ => true
  | _ => false

/-- Count of sent messages of a given shape in a log. -/
def countMsgs (p : WAMessage → Bool) (evs : List Event) : Nat :=
  (sentMsgs evs).countP p

/-- Outcome of one dialogue-backend call: network error or non-2xx status,
a 2xx response whose body is not an array, or an array of traces. -/
inductive VFOutcome where
  | err
  | notArray
  | arr (traces : List Trace)
deriving DecidableEq

/-- One inbound platform message, after unwrapping the webhook envelope. -/
inductive InboundMessage where
  | text (body : Str)
  | interactiveButton (title : Str)
  | interactiveList (title : Str)
  | interactiveOther
  | image (caption : Option Str)
  | audio
  | document (caption : Option Str)
  | other
deriving DecidableEq

namespace P0

/-- part_000 sendWhatsAppMessage: a single POST of the already-built message
payload; no splitting or per-primitive processing happens here.  It throws
when the axios call fails. -/
def sendWhatsAppMessage (ok : Oracle) (m : WAMessage) (s : S) : S × Bool :=
  attemptSend ok m s

/-- Caption composed for a single carousel card:
asterisk, card.title or the word Card, asterisk, then when the description
is truthy a blank line and the description. -/
def carouselCaption (c : Card) : Str :=
  '*' :: jsOr c.title (("Card").toList) ++
    ('*' :: (if truthy c.description then ("\n\n").toList ++ jsOrE c.description else []))

/-- Rows built from the first ten carousel cards: title cut to 24
characters, description cut to 72. -/
def carouselRows (now : Nat) (cards : List Card) : List WARow :=
  mapIdxFrom (fun i c =>
    ⟨("carousel").toList, i, now,
      (jsOr c.title (("Option ").toList ++ natStr (i + 1))).take 24,
      (jsOrE c.description).take 72⟩) 0 (cards.take 10)

/-- part_000 handleCarouselMessage: optional standalone title text followed
by a 500 ms pause, then either a single rich message for one card or one
interactive list for two or more cards.  The boolean is false when a send
threw, in which case the remaining sends of this handler are skipped. -/
def handleCarouselMessage (ok : Oracle) (now : Nat) (p : CarouselPayload) (s : S) : S × Bool :=
  if p.cards.isEmpty then (s, true)
  else
    let tstep : S × Bool :=
      if truthy p.title then
        let r := sendWhatsAppMessage ok (WAMessage.text (jsOrE p.title)) s
        if r.2 then (emit (Event.delay 500) r.1, true) else (r.1, false)
      else (s, true)
    if tstep.2 then
      match p.cards with
      | [c] =>
        if truthy c.imageUrl then
          sendWhatsAppMessage ok (WAMessage.image (jsOrE c.imageUrl) (carouselCaption c)) tstep.1
        else
          sendWhatsAppMessage ok (WAMessage.text (carouselCaption c)) tstep.1
      | _ =>
        sendWhatsAppMessage ok
          (WAMessage.list (("Available Options").toList)
            (("Please select an option from the list below:").toList)
            (("Select Option").toList)
            [⟨("Available Options").toList, carouselRows now p.cards⟩]) tstep.1
    else tstep

/-- Interactive reply buttons built from the first three choice buttons,
titles cut to 20 characters. -/
def choiceButtons (now : Nat) (buttons : List Button) : List WAButton :=
  mapIdxFrom (fun i b =>
    ⟨i, now, (jsOr b.name (("Option ").toList ++ natStr (i + 1))).take 20⟩) 0 (buttons.take 3)

/-- Rows built from the first ten choice buttons: title cut to 24
characters, description from the associated label cut to 72. -/
def choiceRows (now : Nat) (buttons : List Button) : List WARow :=
  mapIdxFrom (fun i b =>
    ⟨("choice").toList, i, now,
      (jsOr b.name (("Option ").toList ++ natStr (i + 1))).take 24,
      (jsOrE b.label).take 72⟩) 0 (buttons.take 10)

/-- part_000 handleChoiceMessage: up to three buttons become one
interactive-buttons message, more than three become one interactive list. -/
def handleChoiceMessage (ok : Oracle) (now : Nat) (p : ChoicePayload) (s : S) : S × Bool :=
  if p.buttons.isEmpty then (s, true)
  else
    let messageText := jsOr p.message (("Please choose an option:").toList)
    if p.buttons.length ≤ 3 then
      sendWhatsAppMessage ok (WAMessage.buttons messageText (choiceButtons now p.buttons)) s
    else
      sendWhatsAppMessage ok
        (WAMessage.list (("Options").toList) messageText (("Choose").toList)
          [⟨("Choose an Option").toList, choiceRows now p.buttons⟩]) s

/-- Text flattened from a cardV2 payload: bolded title, description, body
text, each followed by a blank line when present. -/
def cardV2Text (p : CardV2Payload) : Str :=
  (if truthy p.title then '*' :: jsOrE p.title ++ ("*\n\n").toList else [])
    ++ (if truthy p.description then jsOrE p.description ++ ("\n\n").toList else [])
    ++ (if truthy p.text then jsOrE p.text else [])

/-- part_000 handleCardV2Message: send the flattened text, trimmed, unless
it is blank. -/
def handleCardV2Message (ok : Oracle) (p : CardV2Payload) (s : S) : S × Bool :=
  let msg := cardV2Text p
  if isBlank msg then (s, true)
  else sendWhatsAppMessage ok (WAMessage.text (trimStr msg)) s

/-- Body of one iteration of the part_000 dispatcher loop: the switch on
the trace type.  The boolean is the messageSent flag of the source, which
is false when the guard did not match and also when the processing threw
(the flag is assigned only after the awaited send or handler returns). -/
def traceStep (ok : Oracle) (now : Nat) (t : Trace) (s : S) : S × Bool :=
  match t with
  | Trace.text m =>
    if truthy m then sendWhatsAppMessage ok (WAMessage.text (jsOrE m)) s else (s, false)
  | Trace.speak m =>
    if truthy m then sendWhatsAppMessage ok (WAMessage.text (jsOrE m)) s else (s, false)
  | Trace.visual img cap =>
    if truthy img then
      sendWhatsAppMessage ok (WAMessage.image (jsOrE img) (jsOrE cap)) s
    else (s, false)
  | Trace.carousel p =>
    if p.cards.isEmpty then (s, false) else handleCarouselMessage ok now p s
  | Trace.choice p =>
    if p.buttons.isEmpty then (s, false) else handleChoiceMessage ok now p s
  | Trace.cardV2 op =>
    match op with
    | some p => handleCardV2Message ok p s
    | none => (s, false)
  | Trace.image url cap =>
    if truthy url then
      sendWhatsAppMessage ok (WAMessage.image (jsOrE url) (jsOrE cap)) s
    else (s, false)
  | Trace.other => (s, false)

/-- The part_000 dispatcher loop: each iteration runs inside try/catch, so
a throwing send never aborts the remaining traces; the 1000 ms pause is
applied only when messageSent is true and the trace is not the last. -/
def pvtLoop (ok : Oracle) (now : Nat) : List Trace → S → S
  | [], s => s
  | t :: rest, s =>
    let r := traceStep ok now t s
    let s2 := if r.2 && !rest.isEmpty then emit (Event.delay 1000) r.1 else r.1
    pvtLoop ok now rest s2

/-- part_000 processVoiceflowTraces.  There is no empty-input fallback: an
empty trace array simply produces no events. -/
def processVoiceflowTraces (ok : Oracle) (now : Nat) (traces : List Trace) (s : S) : S :=
  pvtLoop ok now traces s

/-- The static greeting sent when all three dialogue-backend attempts have
failed. -/
def fallbackGreeting : Str :=
  ("Hi! Welcome to Laksh Estate Real Estate Assistant! 🏠\n\nI\x27m here to help you with all your property needs. What would you like to do today?\n\n🔹 Property Services\n🔹 Buy/Sell Properties\n🔹 Investment Advisory\n🔹 Property Management\n\nJust let me know how I can assist you!").toList

/-- The error text sent by the processMessage catch block. -/
def techDifficulties : Str :=
  ("I\x27m experiencing technical difficulties. Please try again in a moment. 🤖").toList

/-- The retry loop of part_000 handleVoiceflowConversation, recursing on
the remaining fuel; attempt numbers count up from one, maxRetries is 3.
On a failed attempt the loop waits 2000 times the attempt number before
retrying, and after the third failure it sends the fixed greeting. -/
def hvcGo (ok : Oracle) (backend : Nat → VFOutcome) (now : Nat) (input : Str) :
    Nat → Nat → S → S × Bool
  | _, 0, s => (s, true)
  | attempt, fuel + 1, s =>
    let a := attempt + 1
    let s1 := emit (Event.vfCall a input) s
    match backend a with
    | VFOutcome.arr traces => (processVoiceflowTraces ok now traces s1, true)
    | _ =>
      if 3 ≤ a then sendWhatsAppMessage ok (WAMessage.text fallbackGreeting) s1
      else hvcGo ok backend now input a fuel (emit (Event.delay (2000 * a)) s1)

/-- part_000 handleVoiceflowConversation: up to three backend attempts,
then the terminal fallback greeting.  The boolean is false only when the
final fallback send itself threw. -/
def handleVoiceflowConversation (ok : Oracle) (backend : Nat → VFOutcome) (now : Nat)
    (input : Str) (s : S) : S × Bool :=
  hvcGo ok backend now input 0 3 s

/-- Utterance extraction of part_000 processMessage; none means an
unsupported type, which returns before contacting the backend.  There is
no emptiness check on the extracted input. -/
def extractInput : InboundMessage → Option Str
  | InboundMessage.text body => some body
  | InboundMessage.interactiveButton t => some t
  | InboundMessage.interactiveList t => some t
  | InboundMessage.interactiveOther => some []
  | InboundMessage.image cap => some (jsOr cap (("User sent an image").toList))
  | InboundMessage.audio => some (("User sent an audio message").toList)
  | InboundMessage.document cap => some (jsOr cap (("User sent a document").toList))
  | InboundMessage.other => none

/-- part_000 processMessage: extract the utterance, hand it to the
conversation handler, and on a thrown error send the technical-difficulty
text from the catch block. -/
def processMessage (ok : Oracle) (backend : Nat → VFOutcome) (now : Nat)
    (m : InboundMessage) (s : S) : S :=
  match extractInput m with
  | none => s
  | some input =>
    let r := handleVoiceflowConversation ok backend now input s
    if r.2 then r.1
    else (sendWhatsAppMessage ok (WAMessage.text techDifficulties) r.1).1

end P0

namespace Idx

/-- Greedy pieces of at most 4000 characters, taken left to right: the
matches the pattern dot-repeated-1-to-4000 produces inside one block of
characters containing no line terminator. -/
def chop4000 : Str → List Str
  | [] => []
  | c :: rest => ((c :: rest).take 4000) :: chop4000 ((c :: rest).drop 4000)
termination_by l => l.length
decreasing_by
  simp [List.length_drop]
  omega

/-- Maximal blocks of consecutive non-line-terminator characters, in
order; the line terminators themselves are dropped, exactly as a global
dot-based regular-expression match does. -/
def runs : Str → List Str
  | [] => []
  | c :: rest =>
    if isLT c then runs rest
    else (c :: rest.takeWhile (fun d => !isLT d)) :: runs (rest.dropWhile (fun d => !isLT d))
termination_by l => l.length
decreasing_by
  · simp
  · have h := (rest.dropWhile_sublist (fun d => !isLT d)).length_le
    simp
    omega

/-- The chunk list produced by text.match of the global regular expression
dot-repeated-1-to-4000 in index.js sendWhatsAppText. -/
def jsChunks (s : Str) : List Str := (runs s).flatMap chop4000

theorem chop4000_cons (l : Str) (h : l ≠ []) :
    chop4000 l = l.take 4000 :: chop4000 (l.drop 4000) := by
  cases l with
  | nil => exact absurd rfl h
  | cons c rest => rw [chop4000]

theorem length_le_of_mem_chop4000 : ∀ (l : Str), ∀ c ∈ chop4000 l, c.length ≤ 4000 := by
  intro l
  induction l using chop4000.induct with
  | case1 => intro c hc; simp [chop4000] at hc
  | case2 hd tl ih =>
    intro c hc
    rw [chop4000] at hc
    rcases List.mem_cons.mp hc with h1 | h2
    · subst h1
      simp [List.length_take]
    · exact ih c h2

theorem subset_of_mem_chop4000 : ∀ (l : Str), ∀ c ∈ chop4000 l, c ⊆ l := by
  intro l
  induction l using chop4000.induct with
  | case1 => intro c hc; simp [chop4000] at hc
  | case2 hd tl ih =>
    intro c hc
    rw [chop4000] at hc
    rcases List.mem_cons.mp hc with h1 | h2
    · subst h1
      exact List.take_subset _ _
    · exact fun x hx => List.drop_subset _ _ (ih c h2 hx)

theorem no_lt_of_mem_runs : ∀ (l : Str), ∀ r ∈ runs l, ∀ c ∈ r, isLT c = false := by
  intro l
  induction l using runs.induct with
  | case1 => intro r hr; simp [runs] at hr
  | case2 c rest hlt ih =>
    intro r hr
    rw [runs, if_pos hlt] at hr
    exact ih r hr
  | case3 c rest hlt ih =>
    intro r hr
    rw [runs, if_neg hlt] at hr
    rcases List.mem_cons.mp hr with h1 | h2
    · subst h1
      intro x hx
      rcases List.mem_cons.mp hx with h3 | h4
      · subst h3
        simpa using hlt
      · have := List.mem_takeWhile_imp h4
        simpa using this
    · exact ih r h2

theorem runs_of_no_lt (l : Str) (hne : l ≠ []) (h : ∀ c ∈ l, isLT c = false) :
    runs l = [l] := by
  cases l with
  | nil => exact absurd rfl hne
  | cons c rest =>
    have hc : isLT c = false := h c (List.mem_cons_self c rest)
    rw [runs, if_neg (by simp [hc])]
    have htw : rest.takeWhile (fun d => !isLT d) = rest :=
      List.takeWhile_eq_self_iff.mpr (fun x hx => by
        simp [h x (List.mem_cons_of_mem c hx)])
    have hdw : rest.dropWhile (fun d => !isLT d) = [] :=
      List.dropWhile_eq_nil_iff.mpr (fun x hx => by
        simp [h x (List.mem_cons_of_mem c hx)])
    rw [htw, hdw, runs]

theorem length_le_of_mem_jsChunks (s : Str) (c : Str) (hc : c ∈ jsChunks s) :
    c.length ≤ 4000 := by
  rcases List.mem_flatMap.mp hc with ⟨r, _, hcr⟩
  exact length_le_of_mem_chop4000 r c hcr

theorem no_lt_of_mem_jsChunks (s : Str) (c : Str) (hc : c ∈ jsChunks s) :
    ∀ x ∈ c, isLT x = false := by
  rcases List.mem_flatMap.mp hc with ⟨r, hr, hcr⟩
  intro x hx
  exact no_lt_of_mem_runs s r hr x (subset_of_mem_chop4000 r c hcr hx)

/-- index.js sendWhatsAppText, success-only model: a blank body is
skipped; a body longer than 4000 characters is matched into chunks and
each chunk is sent recursively, with a 500 ms pause after every chunk;
otherwise one text message is sent. -/
def sendWhatsAppText (body : Str) : List Event :=
  if isBlank body then []
  else if h4 : 4000 < body.length then
    (jsChunks body).attach.flatMap
      (fun c => sendWhatsAppText c.1 ++ [Event.delay 500])
  else [Event.send (WAMessage.text body) true]
termination_by body.length
decreasing_by
  have h1 := length_le_of_mem_jsChunks body c.1 c.2
  omega

/-- Caption field of the outbound image payload: present, cut to 1024
characters, only when the caption is neither empty nor whitespace-only. -/
def capField (caption : Str) : Str :=
  if isBlank caption then [] else caption.take 1024

/-- The prefix prepended to the caption by the image-send fallback. -/
def imgPrefix : Str := ("🖼️ ").toList

/-- index.js sendWhatsAppImage: nothing happens without a URL; ok gives
the outcome of the image POST; on failure the catch block sends the
caption as a text message when the caption is truthy, and otherwise sends
nothing at all. -/
def sendWhatsAppImage (ok : Bool) (imageUrl : Option Str) (caption : Str) : List Event :=
  match imageUrl with
  | none => []
  | some url =>
    if url.isEmpty then []
    else if ok then [Event.send (WAMessage.image url (capField caption)) true]
    else
      Event.send (WAMessage.image url (capField caption)) false ::
        (if caption.isEmpty then [] else sendWhatsAppText (imgPrefix ++ caption))

/-- Caption composed for the single-card branch of index.js
handleCarousel.  The source file is truncated inside this expression;
Modelled from the spec: the card title then, when present, the optional
description (section 4.3a), matching the visible prefix of the cut line. -/
def carouselCaption (c : Card) : Str :=
  jsOrE c.title ++ (if truthy c.description then ("\n\n").toList ++ jsOrE c.description else [])

/-- Rows for the multi-card branch of index.js handleCarousel.
Modelled from the spec: first ten cards as selectable rows, title cut to
24 characters, description cut to 72, ids from card index and Date.now()
(section 4.3a). -/
def carouselRows (now : Nat) (cards : List Card) : List WARow :=
  mapIdxFrom (fun i c =>
    ⟨("carousel").toList, i, now,
      (jsOr c.title (("Option ").toList ++ natStr (i + 1))).take 24,
      (jsOrE c.description).take 72⟩) 0 (cards.take 10)

/-- index.js handleCarousel.  The card-count guard, the standalone bolded
title followed by a 500 ms pause, and the image branch selection are in
src/index.js; the rest of the single-card branch and the whole multi-card
branch are cut off there.  Modelled from the spec: single card becomes one
rich message, two or more cards become one interactive list of at most ten
rows (section 4.3a); the list header is the fixed one of
sendWhatsAppList in src/index.js. -/
def handleCarousel (now : Nat) (p : CarouselPayload) : List Event :=
  if p.cards.isEmpty then []
  else
    (if truthy p.title then
      sendWhatsAppText ('*' :: jsOrE p.title ++ ("*").toList) ++ [Event.delay 500]
    else []) ++
    (match p.cards with
     | [c] =>
       if truthy c.imageUrl then sendWhatsAppImage true c.imageUrl (carouselCaption c)
       else sendWhatsAppText (carouselCaption c)
     | _ =>
       [Event.send
          (WAMessage.list (("Select an Option").toList)
            (("Please select an option:").toList)
            (("View Options").toList)
            [⟨("Options").toList, carouselRows now p.cards⟩]) true])

/-- index.js handleChoiceButtons is cut off from the truncated src file.
Modelled from the spec: one to three buttons become one interactive-buttons
message with titles cut to 20 characters, four or more become one
interactive list of at most ten rows with descriptions from the associated
labels (section 4.3b); the wire shapes are those of sendWhatsAppButtons and
sendWhatsAppList in src/index.js. -/
def handleChoiceButtons (now : Nat) (p : ChoicePayload) : List Event :=
  if p.buttons.isEmpty then []
  else
    let messageText := jsOr p.message (("Please choose an option:").toList)
    if p.buttons.length ≤ 3 then
      [Event.send (WAMessage.buttons messageText (P0.choiceButtons now p.buttons)) true]
    else
      [Event.send
        (WAMessage.list (("Select an Option").toList) messageText (("Choose").toList)
          [⟨("Options").toList, P0.choiceRows now p.buttons⟩]) true]

/-- index.js handleCardV2 is cut off from the truncated src file.
Modelled from the spec: flatten the present fields into one text message,
sending nothing when everything is blank (section 4.3). -/
def handleCardV2 (p : Option CardV2Payload) : List Event :=
  match p with
  | none => []
  | some q =>
    let msg := P0.cardV2Text q
    if isBlank msg then [] else sendWhatsAppText (trimStr msg)

/-- The switch of index.js processVoiceflowResponse for one trace, in the
success-only model.  There is no case for the extra image trace type of
part_000; it falls to the default arm and is skipped. -/
def traceStep (now : Nat) (t : Trace) : List Event :=
  match t with
  | Trace.text m => if truthy m then sendWhatsAppText (jsOrE m) else []
  | Trace.speak m => if truthy m then sendWhatsAppText (jsOrE m) else []
  | Trace.visual img cap =>
    if truthy img then sendWhatsAppImage true img (jsOrE cap) else []
  | Trace.carousel p => if p.cards.isEmpty then [] else handleCarousel now p
  | Trace.choice p => if p.buttons.isEmpty then [] else handleChoiceButtons now p
  | Trace.cardV2 op => handleCardV2 op
  | Trace.image _ _ => []
  | Trace.other => []

/-- Fallback sent when the dispatcher receives nothing usable. -/
def noResponseText : Str :=
  ("I understand your message, but I don\x27t have a response ready right now. Could you please try rephrasing?").toList

/-- The index.js dispatcher loop in the success-only model: a 300 ms pause
between consecutive traces, none after the last, regardless of whether the
trace produced any send. -/
def pvrLoop (now : Nat) : List Trace → List Event
  | [] => []
  | [t] => traceStep now t
  | t :: rest => traceStep now t ++ Event.delay 300 :: pvrLoop now rest

/-- index.js processVoiceflowResponse: none models a non-array response
body; empty or non-array input sends exactly one fallback text before any
trace handling. -/
def processVoiceflowResponse (now : Nat) (traces : Option (List Trace)) : List Event :=
  match traces with
  | none => sendWhatsAppText noResponseText
  | some [] => sendWhatsAppText noResponseText
  | some ts => pvrLoop now ts

/-- The error text of the index.js processMessage catch block. -/
def techDifficulties : Str :=
  ("I\x27m sorry, I\x27m experiencing technical difficulties right now. Please try again in a few moments. 🤖💭").toList

/-- Utterance extraction of index.js processMessage; none means an
unsupported type. -/
def extractInput : InboundMessage → Option Str
  | InboundMessage.text body => some body
  | InboundMessage.interactiveButton t => some t
  | InboundMessage.interactiveList t => some t
  | InboundMessage.interactiveOther => some []
  | InboundMessage.image cap => some (jsOr cap (("User sent an image").toList))
  | InboundMessage.audio => some (("User sent a voice message").toList)
  | InboundMessage.document cap => some (jsOr cap (("User sent a document").toList))
  | InboundMessage.other => none

/-- index.js processMessage: unsupported kinds and blank extracted input
return before any network effect; otherwise the typing indicator, one
dialogue-backend call (index.js has no retry loop), and the response
dispatch follow; a thrown backend call is answered from the catch block,
and a truthy non-array response body is forwarded and caught by the
array-shape test of the dispatcher. -/
def processMessage (backend : VFOutcome) (now : Nat) (m : InboundMessage) : List Event :=
  match extractInput m with
  | none => []
  | some input =>
    if isBlank input then []
    else
      Event.typing :: Event.vfCall 1 input ::
        (match backend with
         | VFOutcome.err => sendWhatsAppText techDifficulties
         | VFOutcome.notArray => processVoiceflowResponse now none
         | VFOutcome.arr ts => processVoiceflowResponse now (some ts))

end Idx

/-! ## Helper lemmas -/

theorem mapIdxFrom_length {α β : Type} (f : Nat → α → β) :
    ∀ (i : Nat) (l : List α), (mapIdxFrom f i l).length = l.length := by
  intro i l
  induction l generalizing i with
  | nil => rfl
  | cons a as ih => simp [mapIdxFrom, ih]

theorem mem_mapIdxFrom {α β : Type} {f : Nat → α → β} :
    ∀ {i : Nat} {l : List α} {b : β},
      b ∈ mapIdxFrom f i l → ∃ j a, a ∈ l ∧ b = f j a := by
  intro i l
  induction l generalizing i with
  | nil => intro b hb; simp [mapIdxFrom] at hb
  | cons a as ih =>
    intro b hb
    rw [mapIdxFrom] at hb
    rcases List.mem_cons.mp hb with h1 | h2
    · exact ⟨i, a, List.mem_cons_self a as, h1⟩
    · rcases ih h2 with ⟨j, x, hx, hfx⟩
      exact ⟨j, x, List.mem_cons_of_mem a hx, hfx⟩

theorem sentMsgs_append (l₁ l₂ : List Event) :
    sentMsgs (l₁ ++ l₂) = sentMsgs l₁ ++ sentMsgs l₂ :=
  List.filterMap_append l₁ l₂ _

/-! ## Claim C2 -/

/-- C2: for a choice trace with a non-empty button list, part_000
handleChoiceMessage sends exactly one message: with one to three buttons
one interactive-buttons message whose button titles are cut to 20
characters and which carries one button per choice button; with four or
more buttons one interactive-list message built from the first ten
buttons, row titles cut to 24 characters and row descriptions, sourced
from the associated labels, cut to 72.  The cutoff is exactly at more
than three, and the two message kinds are never both sent. -/
theorem choice_button_list_threshold (now : Nat) (p : ChoicePayload)
    (hne : p.buttons ≠ []) :
    (p.buttons.length ≤ 3 →
      ∃ btns,
        ((P0.handleChoiceMessage allOk now p ⟨0, []⟩).1).log
          = [Event.send (WAMessage.buttons
              (jsOr p.message (("Please choose an option:").toList)) btns) true]
        ∧ btns.length = p.buttons.length
        ∧ ∀ b ∈ btns, b.title.length ≤ 20) ∧
    (3 < p.buttons.length →
      ∃ rows,
        ((P0.handleChoiceMessage allOk now p ⟨0, []⟩).1).log
          = [Event.send (WAMessage.list (("Options").toList)
              (jsOr p.message (("Please choose an option:").toList))
              (("Choose").toList)
              [⟨("Choose an Option").toList, rows⟩]) true]
        ∧ rows.length = min 10 p.buttons.length
        ∧ ∀ r ∈ rows, r.title.length ≤ 24 ∧ r.description.length ≤ 72) := by
  have hempty : p.buttons.isEmpty = false := by
    simpa using hne
  constructor
  · intro h3
    refine ⟨P0.choiceButtons now p.buttons, ?_, ?_, ?_⟩
    · simp [P0.handleChoiceMessage, hempty, h3, P0.sendWhatsAppMessage, attemptSend, allOk]
    · rw [P0.choiceButtons, mapIdxFrom_length, List.take_of_length_le h3]
    · intro b hb
      rcases mem_mapIdxFrom hb with ⟨j, a, _, hba⟩
      subst hba
      simp [List.length_take]
  · intro h3
    have h3' : ¬ p.buttons.length ≤ 3 := by omega
    refine ⟨P0.choiceRows now p.buttons, ?_, ?_, ?_⟩
    · simp [P0.handleChoiceMessage, hempty, h3', P0.sendWhatsAppMessage, attemptSend, allOk]
    · rw [P0.choiceRows, mapIdxFrom_length, List.length_take]
    · intro r hr
      rcases mem_mapIdxFrom hr with ⟨j, a, _, hra⟩
      subst hra
      refine ⟨?_, ?_⟩ <;> simp [List.length_take]

/-- Concrete five-button payload used to instantiate C2. -/
def c2Payload : ChoicePayload :=
  ⟨some (("Pick one").toList),
   [⟨some (("A").toList), none⟩, ⟨some (("B").toList), none⟩,
    ⟨some (("C").toList), none⟩, ⟨some (("D").toList), none⟩,
    ⟨some (("E").toList), none⟩]⟩

/-- C2 witness: the theorem applied to a concrete five-button choice
payload, with the hypotheses discharged by evaluation. -/
theorem choice_button_list_threshold_witness :
    c2Payload.buttons ≠ [] ∧ 3 < c2Payload.buttons.length ∧
    (∃ rows,
        ((P0.handleChoiceMessage allOk 7 c2Payload ⟨0, []⟩).1).log
          = [Event.send (WAMessage.list (("Options").toList)
              (jsOr c2Payload.message (("Please choose an option:").toList))
              (("Choose").toList)
              [⟨("Choose an Option").toList, rows⟩]) true]
        ∧ rows.length = min 10 c2Payload.buttons.length
        ∧ ∀ r ∈ rows, r.title.length ≤ 24 ∧ r.description.length ≤ 72) :=
  ⟨by decide, by decide,
   (choice_button_list_threshold 7 c2Payload (by decide)).2 (by decide)⟩

/-! ## Claim C3 -/

/-- C3: for a carousel trace with a non-empty card list, part_000
handleCarouselMessage behaves by cardinality: with exactly one card that
has an image URL it sends exactly one image message, whose caption is
composed from the card title and the optional description, and no
interactive message of either kind (an optional standalone title text may
precede it); with two or more cards it sends exactly one interactive-list
message and never an interactive-buttons or image message, the rows being
the first ten cards with titles cut to 24 characters and descriptions cut
to 72. -/
theorem carousel_card_boundary (now : Nat) (p : CarouselPayload)
    (hne : p.cards ≠ []) :
    (∀ c, p.cards = [c] → truthy c.imageUrl = true →
      countMsgs isImageMsg ((P0.handleCarouselMessage allOk now p ⟨0, []⟩).1).log = 1
      ∧ countMsgs isListMsg ((P0.handleCarouselMessage allOk now p ⟨0, []⟩).1).log = 0
      ∧ countMsgs isButtonsMsg ((P0.handleCarouselMessage allOk now p ⟨0, []⟩).1).log = 0
      ∧ Event.send (WAMessage.image (jsOrE c.imageUrl) (P0.carouselCaption c)) true
          ∈ ((P0.handleCarouselMessage allOk now p ⟨0, []⟩).1).log) ∧
    (2 ≤ p.cards.length →
      ∃ rows,
        countMsgs isListMsg ((P0.handleCarouselMessage allOk now p ⟨0, []⟩).1).log = 1
        ∧ countMsgs isButtonsMsg ((P0.handleCarouselMessage allOk now p ⟨0, []⟩).1).log = 0
        ∧ countMsgs isImageMsg ((P0.handleCarouselMessage allOk now p ⟨0, []⟩).1).log = 0
        ∧ Event.send (WAMessage.list (("Available Options").toList)
            (("Please select an option from the list below:").toList)
            (("Select Option").toList)
            [⟨("Available Options").toList, rows⟩]) true
            ∈ ((P0.handleCarouselMessage allOk now p ⟨0, []⟩).1).log
        ∧ rows.length = min 10 p.cards.length
        ∧ ∀ r ∈ rows, r.title.length ≤ 24 ∧ r.description.length ≤ 72) := by
  constructor
  · intro c hc himg
    by_cases ht : truthy p.title <;>
      simp [P0.handleCarouselMessage, hc, ht, himg, P0.sendWhatsAppMessage,
        attemptSend, emit, allOk, countMsgs, sentMsgs, List.countP_cons,
          isImageMsg, isListMsg, isButtonsMsg]
  · intro h2
    obtain ⟨c1, tl, hc1⟩ : ∃ c1 tl, p.cards = c1 :: tl := by
      cases hx : p.cards with
      | nil => rw [hx] at hne; exact absurd rfl hne
      | cons a b => exact ⟨a, b, rfl⟩
    obtain ⟨c2, rest, hc2⟩ : ∃ c2 rest, tl = c2 :: rest := by
      cases hy : tl with
      | nil =>
        rw [hc1, hy] at h2
        simp at h2
      | cons a b => exact ⟨a, b, rfl⟩
    refine ⟨P0.carouselRows now p.cards, ?_, ?_, ?_, ?_, ?_, ?_⟩
    · by_cases ht : truthy p.title <;>
        simp [P0.handleCarouselMessage, hc1, hc2, ht, P0.sendWhatsAppMessage,
          attemptSend, emit, allOk, countMsgs, sentMsgs, List.countP_cons,
          isImageMsg, isListMsg, isButtonsMsg]
    · by_cases ht : truthy p.title <;>
        simp [P0.handleCarouselMessage, hc1, hc2, ht, P0.sendWhatsAppMessage,
          attemptSend, emit, allOk, countMsgs, sentMsgs, List.countP_cons,
          isImageMsg, isListMsg, isButtonsMsg]
    · by_cases ht : truthy p.title <;>
        simp [P0.handleCarouselMessage, hc1, hc2, ht, P0.sendWhatsAppMessage,
          attemptSend, emit, allOk, countMsgs, sentMsgs, List.countP_cons,
          isImageMsg, isListMsg, isButtonsMsg]
    · by_cases ht : truthy p.title <;>
        simp [P0.handleCarouselMessage, hc1, hc2, ht, P0.sendWhatsAppMessage,
          attemptSend, emit, allOk]
    · rw [P0.carouselRows, mapIdxFrom_length, List.length_take]
    · intro r hr
      rcases mem_mapIdxFrom hr with ⟨j, a, _, hra⟩
      subst hra
      refine ⟨?_, ?_⟩ <;> simp [List.length_take]

/-- Concrete card with an image URL used to instantiate C3. -/
def c3Card : Card :=
  ⟨some (("House").toList), some (("Sea view").toList), some (("http://img").toList)⟩

/-- Concrete one-card carousel payload used to instantiate C3. -/
def c3Single : CarouselPayload := ⟨some (("Featured").toList), [c3Card]⟩

/-- Concrete two-card carousel payload used to instantiate C3. -/
def c3Multi : CarouselPayload :=
  ⟨none, [⟨some (("One").toList), none, none⟩, ⟨some (("Two").toList), none, none⟩]⟩

/-- C3 witness: the theorem applied to a concrete single-card payload with
an image URL and to a concrete two-card payload, with the hypotheses
discharged by evaluation. -/
theorem carousel_card_boundary_witness :
    (c3Single.cards ≠ [] ∧
      countMsgs isImageMsg ((P0.handleCarouselMessage allOk 7 c3Single ⟨0, []⟩).1).log = 1
      ∧ countMsgs isListMsg ((P0.handleCarouselMessage allOk 7 c3Single ⟨0, []⟩).1).log = 0
      ∧ countMsgs isButtonsMsg ((P0.handleCarouselMessage allOk 7 c3Single ⟨0, []⟩).1).log = 0
      ∧ Event.send (WAMessage.image (jsOrE c3Card.imageUrl) (P0.carouselCaption c3Card)) true
          ∈ ((P0.handleCarouselMessage allOk 7 c3Single ⟨0, []⟩).1).log) ∧
    (c3Multi.cards ≠ [] ∧ 2 ≤ c3Multi.cards.length ∧
      ∃ rows,
        countMsgs isListMsg ((P0.handleCarouselMessage allOk 7 c3Multi ⟨0, []⟩).1).log = 1
        ∧ countMsgs isButtonsMsg ((P0.handleCarouselMessage allOk 7 c3Multi ⟨0, []⟩).1).log = 0
        ∧ countMsgs isImageMsg ((P0.handleCarouselMessage allOk 7 c3Multi ⟨0, []⟩).1).log = 0
        ∧ Event.send (WAMessage.list (("Available Options").toList)
            (("Please select an option from the list below:").toList)
            (("Select Option").toList)
            [⟨("Available Options").toList, rows⟩]) true
            ∈ ((P0.handleCarouselMessage allOk 7 c3Multi ⟨0, []⟩).1).log
        ∧ rows.length = min 10 c3Multi.cards.length
        ∧ ∀ r ∈ rows, r.title.length ≤ 24 ∧ r.description.length ≤ 72) :=
  ⟨⟨by decide, (carousel_card_boundary 7 c3Single (by decide)).1 c3Card rfl (by decide)⟩,
   ⟨by decide, by decide, (carousel_card_boundary 7 c3Multi (by decide)).2 (by decide)⟩⟩

/-! ## Claim C1 -/

/-- C1: for every utterance and every backend behavior in which each of
the three attempts fails with a network error, a non-2xx status or a
non-array body, part_000 handleVoiceflowConversation returns normally
(it does not raise) and its whole effect is: three backend calls with
their two backoff pauses of 2000 and 4000 ms, and then exactly one
outbound text send carrying the fixed fallback greeting — no fourth
attempt and no further send. -/
theorem dialogue_exhaustion_fallback (backend : Nat → VFOutcome) (now : Nat)
    (input : Str)
    (h : ∀ a, 1 ≤ a → a ≤ 3 → ∀ ts, backend a ≠ VFOutcome.arr ts) :
    (P0.handleVoiceflowConversation allOk backend now input ⟨0, []⟩).2 = true ∧
    ((P0.handleVoiceflowConversation allOk backend now input ⟨0, []⟩).1).log
      = [Event.vfCall 1 input, Event.delay 2000,
         Event.vfCall 2 input, Event.delay 4000,
         Event.vfCall 3 input,
         Event.send (WAMessage.text P0.fallbackGreeting) true] := by
  have h1 := h 1 (by omega) (by omega)
  have h2 := h 2 (by omega) (by omega)
  have h3 := h 3 (by omega) (by omega)
  rw [P0.handleVoiceflowConversation]
  rw [P0.hvcGo]
  rcases hb1 : backend 1 with _ | _ | ts1
  all_goals try exact absurd hb1 (by simpa using h1 ts1)
  all_goals simp only [hb1]
  all_goals rw [P0.hvcGo]
  all_goals rcases hb2 : backend 2 with _ | _ | ts2
  all_goals try exact absurd hb2 (by simpa using h2 ts2)
  all_goals simp only [hb2]
  all_goals rw [P0.hvcGo]
  all_goals rcases hb3 : backend 3 with _ | _ | ts3
  all_goals try exact absurd hb3 (by simpa using h3 ts3)
  all_goals simp [P0.sendWhatsAppMessage, attemptSend, emit, allOk]

/-- C1 witness: the theorem applied to the backend that always fails with
a network error, and an arbitrary concrete utterance. -/
theorem dialogue_exhaustion_fallback_witness :
    (∀ a, 1 ≤ a → a ≤ 3 → ∀ ts, (fun _ => VFOutcome.err) a ≠ VFOutcome.arr ts) ∧
    (P0.handleVoiceflowConversation allOk (fun _ => VFOutcome.err) 0
        (("hello").toList) ⟨0, []⟩).2 = true ∧
    ((P0.handleVoiceflowConversation allOk (fun _ => VFOutcome.err) 0
        (("hello").toList) ⟨0, []⟩).1).log
      = [Event.vfCall 1 (("hello").toList), Event.delay 2000,
         Event.vfCall 2 (("hello").toList), Event.delay 4000,
         Event.vfCall 3 (("hello").toList),
         Event.send (WAMessage.text P0.fallbackGreeting) true] :=
  ⟨fun _ _ _ _ hcon => VFOutcome.noConfusion hcon,
   dialogue_exhaustion_fallback (fun _ => VFOutcome.err) 0 (("hello").toList)
     (fun _ _ _ _ hcon => VFOutcome.noConfusion hcon)⟩

/-! ## Claim C4 -/

/-- The single outbound message attempted by a one-send trace: a text or
speak trace with a truthy message, or a visual or image trace with a
truthy URL.  Other trace shapes make zero or several send attempts and
are excluded. -/
def simpleMsg : Trace → Option WAMessage
  | Trace.text m => if truthy m then some (WAMessage.text (jsOrE m)) else none
  | Trace.speak m => if truthy m then some (WAMessage.text (jsOrE m)) else none
  | Trace.visual img cap =>
    if truthy img then some (WAMessage.image (jsOrE img) (jsOrE cap)) else none
  | Trace.image url cap =>
    if truthy url then some (WAMessage.image (jsOrE url) (jsOrE cap)) else none
  | _ => none

theorem traceStep_simple (ok : Oracle) (now : Nat) (t : Trace) (m : WAMessage)
    (hm : simpleMsg t = some m) (s : S) :
    P0.traceStep ok now t s
      = (⟨s.ctr + 1, s.log ++ [Event.send m (ok s.ctr)]⟩, ok s.ctr) := by
  cases t with
  | text m0 =>
    by_cases hh : truthy m0
    · simp [simpleMsg, hh] at hm
      simp [P0.traceStep, hh, P0.sendWhatsAppMessage, attemptSend, hm]
    · simp [simpleMsg, hh] at hm
  | speak m0 =>
    by_cases hh : truthy m0
    · simp [simpleMsg, hh] at hm
      simp [P0.traceStep, hh, P0.sendWhatsAppMessage, attemptSend, hm]
    · simp [simpleMsg, hh] at hm
  | visual img cap =>
    by_cases hh : truthy img
    · simp [simpleMsg, hh] at hm
      simp [P0.traceStep, hh, P0.sendWhatsAppMessage, attemptSend, hm]
    · simp [simpleMsg, hh] at hm
  | image url cap =>
    by_cases hh : truthy url
    · simp [simpleMsg, hh] at hm
      simp [P0.traceStep, hh, P0.sendWhatsAppMessage, attemptSend, hm]
    · simp [simpleMsg, hh] at hm
  | carousel p => simp [simpleMsg] at hm
  | choice p => simp [simpleMsg] at hm
  | cardV2 op => simp [simpleMsg] at hm
  | other => simp [simpleMsg] at hm

theorem pvtLoop_attempts (ok : Oracle) (now : Nat) :
    ∀ (traces : List Trace) (s : S),
      (∀ t ∈ traces, (simpleMsg t).isSome) →
      sentMsgs (P0.pvtLoop ok now traces s).log
        = sentMsgs s.log ++ traces.filterMap simpleMsg := by
  intro traces
  induction traces with
  | nil => intro s _; simp [P0.pvtLoop]
  | cons t rest ih =>
    intro s h
    obtain ⟨m, hm⟩ := Option.isSome_iff_exists.mp (h t (List.mem_cons_self t rest))
    have hrest : ∀ x ∈ rest, (simpleMsg x).isSome :=
      fun x hx => h x (List.mem_cons_of_mem t hx)
    rw [P0.pvtLoop, traceStep_simple ok now t m hm]
    by_cases hb : (ok s.ctr && !rest.isEmpty) = true
    · simp only [hb, if_true, emit]
      rw [ih _ hrest]
      simp [sentMsgs_append, sentMsgs, List.filterMap_cons, hm, List.append_assoc]
    · rw [if_neg hb]
      rw [ih _ hrest]
      simp [sentMsgs_append, sentMsgs, List.filterMap_cons, hm, List.append_assoc]

/-- C4: for every ordered sequence of one-send traces and every pattern of
send failures — in particular when the send for exactly one trace throws
and the other sends succeed — the part_000 dispatcher still attempts the
send of every trace, in order: the attempted-send sequence equals the
per-trace planned messages and has one entry per trace.  The per-trace
catch absorbs each failure, so the dispatcher itself returns normally. -/
theorem dispatcher_failure_isolation (ok : Oracle) (now : Nat) (traces : List Trace)
    (h : ∀ t ∈ traces, (simpleMsg t).isSome) :
    sentMsgs (P0.processVoiceflowTraces ok now traces ⟨0, []⟩).log
      = traces.filterMap simpleMsg
    ∧ (sentMsgs (P0.processVoiceflowTraces ok now traces ⟨0, []⟩).log).length
      = traces.length := by
  have hmain := pvtLoop_attempts ok now traces ⟨0, []⟩ h
  have hlen : ∀ (l : List Trace), (∀ t ∈ l, (simpleMsg t).isSome) →
      (l.filterMap simpleMsg).length = l.length := by
    intro l
    induction l with
    | nil => intro _; rfl
    | cons a as ihh =>
      intro hh
      obtain ⟨m, hm⟩ := Option.isSome_iff_exists.mp (hh a (List.mem_cons_self a as))
      simp [List.filterMap_cons, hm,
        ihh (fun x hx => hh x (List.mem_cons_of_mem a hx))]
  constructor
  · simpa [P0.processVoiceflowTraces, sentMsgs] using hmain
  · rw [show sentMsgs (P0.processVoiceflowTraces ok now traces ⟨0, []⟩).log
        = traces.filterMap simpleMsg by
      simpa [P0.processVoiceflowTraces, sentMsgs] using hmain]
    exact hlen traces h

/-- The oracle under which exactly the second send attempt throws. -/
def failSecond : Oracle := fun n => !(n == 1)

/-- C4 witness: three one-send text traces with the send of the middle
trace throwing; the theorem is applied with the hypotheses discharged by
evaluation. -/
theorem dispatcher_failure_isolation_witness :
    (∀ t ∈ [Trace.text (some (("a").toList)), Trace.text (some (("b").toList)),
            Trace.text (some (("c").toList))], (simpleMsg t).isSome) ∧
    sentMsgs (P0.processVoiceflowTraces failSecond 0
        [Trace.text (some (("a").toList)), Trace.text (some (("b").toList)),
         Trace.text (some (("c").toList))] ⟨0, []⟩).log
      = [Trace.text (some (("a").toList)), Trace.text (some (("b").toList)),
         Trace.text (some (("c").toList))].filterMap simpleMsg
    ∧ (sentMsgs (P0.processVoiceflowTraces failSecond 0
        [Trace.text (some (("a").toList)), Trace.text (some (("b").toList)),
         Trace.text (some (("c").toList))] ⟨0, []⟩).log).length = 3 :=
  ⟨by decide,
   dispatcher_failure_isolation failSecond 0
     [Trace.text (some (("a").toList)), Trace.text (some (("b").toList)),
      Trace.text (some (("c").toList))] (by decide)⟩

/-! ## Sender lemmas for index.js text chunking -/

theorem sendWhatsAppText_blank (body : Str) (hb : isBlank body = true) :
    Idx.sendWhatsAppText body = [] := by
  rw [Idx.sendWhatsAppText]
  simp [hb]

theorem sendWhatsAppText_small (body : Str) (h : body.length ≤ 4000) :
    Idx.sendWhatsAppText body
      = if isBlank body then [] else [Event.send (WAMessage.text body) true] := by
  rw [Idx.sendWhatsAppText]
  by_cases hb : isBlank body
  · simp [hb]
  · rw [if_neg hb, dif_neg (by omega), if_neg hb]

theorem sendWhatsAppText_chunks (body : Str) (hb : isBlank body = false)
    (h4 : 4000 < body.length) :
    Idx.sendWhatsAppText body
      = (Idx.jsChunks body).flatMap
          (fun c => (if isBlank c then [] else [Event.send (WAMessage.text c) true])
            ++ [Event.delay 500]) := by
  rw [Idx.sendWhatsAppText]
  rw [if_neg (by simp [hb]), dif_pos h4]
  simp only [List.flatMap_subtype, List.unattach_attach]
  refine List.flatMap_congr ?_
  intro c hc
  rw [sendWhatsAppText_small c (Idx.length_le_of_mem_jsChunks body c hc)]

theorem sentMsgs_flatMap {α : Type} (l : List α) (f : α → List Event) :
    sentMsgs (l.flatMap f) = l.flatMap (fun a => sentMsgs (f a)) := by
  induction l with
  | nil => rfl
  | cons a as ih => simp only [List.flatMap_cons, sentMsgs_append, ih]

theorem jsChunks_no_lt_9000 (body : Str) (hlen : body.length = 9000)
    (hlt : ∀ c ∈ body, isLT c = false) :
    Idx.jsChunks body
      = [body.take 4000, (body.drop 4000).take 4000, body.drop 8000] := by
  have hne : body ≠ [] := by
    intro h; rw [h] at hlen; simp at hlen
  rw [Idx.jsChunks, Idx.runs_of_no_lt body hne hlt]
  simp only [List.flatMap_cons, List.flatMap_nil, List.append_nil]
  have h1 : (body.drop 4000).length = 5000 := by simp [hlen]
  have hne1 : body.drop 4000 ≠ [] := by
    intro h; rw [h] at h1; simp at h1
  have h2 : ((body.drop 4000).drop 4000).length = 1000 := by simp [hlen]
  have hne2 : (body.drop 4000).drop 4000 ≠ [] := by
    intro h; rw [h] at h2; simp at h2
  have h3 : ((body.drop 4000).drop 4000).drop 4000 = [] := by
    apply List.drop_eq_nil_of_le
    omega
  rw [Idx.chop4000_cons body hne, Idx.chop4000_cons _ hne1, Idx.chop4000_cons _ hne2, h3]
  have h4 : ((body.drop 4000).drop 4000).take 4000 = (body.drop 4000).drop 4000 :=
    List.take_of_length_le (by omega)
  have h5 : (body.drop 4000).drop 4000 = body.drop 8000 := by
    rw [List.drop_drop]
  have h6 : Idx.chop4000 [] = [] := by
    rw [Idx.chop4000]
  rw [h4, h5, h6]

/-! ## Claim C5 -/

/-- C5 counterexample: the claim fails on the code in both variants.  The
part_000 sender forwards a 9000-character text body as one single message
instead of three chunks, and the index.js sender sends zero messages, not
one, for a whitespace-only body of length at most 4000. -/
theorem text_chunk_split_counterexample :
    (List.replicate 9000 'a' : Str).length = 9000 ∧
    sentMsgs ((P0.traceStep allOk 0
        (Trace.text (some (List.replicate 9000 'a'))) ⟨0, []⟩).1).log
      = [WAMessage.text (List.replicate 9000 'a')] ∧
    ([' '] : Str).length ≤ 4000 ∧ Idx.sendWhatsAppText [' '] = [] := by
  refine ⟨by rw [List.length_replicate], ?_, by decide, ?_⟩
  · have hne : (List.replicate 9000 'a' : Str) ≠ [] := by
      intro h
      have h2 := congrArg List.length h
      rw [List.length_replicate] at h2
      exact absurd h2 (by decide)
    have hgen : ∀ (l : Str), l ≠ [] →
        sentMsgs ((P0.traceStep allOk 0 (Trace.text (some l)) ⟨0, []⟩).1).log
          = [WAMessage.text l] := by
      intro l hl
      have ht : truthy (some l) = true := by
        simpa [truthy, List.isEmpty_iff] using hl
      have hj : jsOrE (some l) = l := by
        have hni : ¬ l.isEmpty = true := fun hh => hl (List.isEmpty_iff.mp hh)
        simp [jsOrE, jsOr, hni]
      simp [P0.traceStep, ht, hj, P0.sendWhatsAppMessage, attemptSend, allOk, sentMsgs]
    exact hgen _ hne
  · rw [sendWhatsAppText_blank]
    decide

/-- C5 amended: in the index.js sender, a 9000-character body that
contains no line terminator and none of whose three chunks is
whitespace-only is split into exactly three sequential chunks at the
4000-character boundary — two chunks of 4000 characters and a final chunk
of 1000 — sent in that order; and a body of length at most 4000 that is
not whitespace-only is sent as a single message.  (The part_000 variant
sender performs no splitting at all, and chunks of a newline-containing
body follow the newline structure instead, as the counterexample shows.) -/
theorem text_chunk_split_amended (body : Str) :
    (body.length = 9000 → (∀ c ∈ body, isLT c = false) →
      isBlank (body.take 4000) = false →
      isBlank ((body.drop 4000).take 4000) = false →
      isBlank (body.drop 8000) = false →
      sentMsgs (Idx.sendWhatsAppText body)
        = [WAMessage.text (body.take 4000),
           WAMessage.text ((body.drop 4000).take 4000),
           WAMessage.text (body.drop 8000)]
      ∧ (body.take 4000).length = 4000
      ∧ ((body.drop 4000).take 4000).length = 4000
      ∧ (body.drop 8000).length = 1000) ∧
    (isBlank body = false → body.length ≤ 4000 →
      Idx.sendWhatsAppText body = [Event.send (WAMessage.text body) true]) := by
  constructor
  · intro hlen hlt hb1 hb2 hb3
    have hbody : isBlank body = false := by
      by_contra hcon
      have hblank : body.all isWS = true := by
        simpa [isBlank] using hcon
      have hall := List.all_eq_true.mp hblank
      have : isBlank (body.take 4000) = true :=
        List.all_eq_true.mpr (fun x hx => hall x (List.take_subset _ _ hx))
      rw [this] at hb1
      exact Bool.true_eq_false.mp hb1
    rw [sendWhatsAppText_chunks body hbody (by omega),
      jsChunks_no_lt_9000 body hlen hlt]
    refine ⟨?_, ?_, ?_, ?_⟩
    · simp [sentMsgs_flatMap, sentMsgs_append, sentMsgs, hb1, hb2, hb3]
    · simp [hlen]
    · simp [hlen]
    · simp [hlen]
  · intro hb hlen
    rw [sendWhatsAppText_small body hlen, if_neg (by simp [hb])]

/-- C5 witness: the amended theorem applied to the 9000-letter body and to
a short greeting, with every hypothesis discharged by evaluation. -/
theorem text_chunk_split_amended_witness :
    ((List.replicate 9000 'a' : Str).length = 9000
      ∧ (∀ c ∈ (List.replicate 9000 'a' : Str), isLT c = false)
      ∧ isBlank ((List.replicate 9000 'a' : Str).take 4000) = false
      ∧ isBlank (((List.replicate 9000 'a' : Str).drop 4000).take 4000) = false
      ∧ isBlank ((List.replicate 9000 'a' : Str).drop 8000) = false
      ∧ (sentMsgs (Idx.sendWhatsAppText (List.replicate 9000 'a'))
          = [WAMessage.text ((List.replicate 9000 'a' : Str).take 4000),
             WAMessage.text (((List.replicate 9000 'a' : Str).drop 4000).take 4000),
             WAMessage.text ((List.replicate 9000 'a' : Str).drop 8000)]
        ∧ ((List.replicate 9000 'a' : Str).take 4000).length = 4000
        ∧ (((List.replicate 9000 'a' : Str).drop 4000).take 4000).length = 4000
        ∧ ((List.replicate 9000 'a' : Str).drop 8000).length = 1000)) ∧
    (isBlank (("hello").toList) = false ∧ (("hello").toList : Str).length ≤ 4000
      ∧ Idx.sendWhatsAppText (("hello").toList)
          = [Event.send (WAMessage.text (("hello").toList)) true]) := by
  have hrep : ∀ n : Nat, 0 < n → isBlank (List.replicate n 'a') = false := by
    intro n hn
    have : ¬ (List.replicate n 'a' : Str).all isWS = true := by
      intro hall
      have := List.all_eq_true.mp hall 'a'
        (List.mem_replicate.mpr ⟨by omega, rfl⟩)
      simp [isWS] at this
    simpa [isBlank] using this
  have h1 : isBlank ((List.replicate 9000 'a' : Str).take 4000) = false := by
    rw [List.take_replicate]
    exact hrep _ (by norm_num)
  have h2 : isBlank (((List.replicate 9000 'a' : Str).drop 4000).take 4000) = false := by
    rw [List.drop_replicate, List.take_replicate]
    exact hrep _ (by norm_num)
  have h3 : isBlank ((List.replicate 9000 'a' : Str).drop 8000) = false := by
    rw [List.drop_replicate]
    exact hrep _ (by norm_num)
  have hlt : ∀ c ∈ (List.replicate 9000 'a' : Str), isLT c = false := by
    intro c hc
    rw [List.eq_of_mem_replicate hc]
    decide
  refine ⟨⟨by rw [List.length_replicate], hlt, h1, h2, h3, ?_⟩, by decide, by decide, ?_⟩
  · exact (text_chunk_split_amended (List.replicate 9000 'a')).1
      (by rw [List.length_replicate]) hlt h1 h2 h3
  · exact (text_chunk_split_amended (("hello").toList)).2 (by decide) (by decide)

/-! ## Claim C10 -/

/-- Body of a text message, empty for other message kinds. -/
def textBody : WAMessage → Str
  | WAMessage.text b => b
  | _ => []

/-- Concatenation of the bodies of the text sends in a log, in order. -/
def sentTextConcat (evs : List Event) : Str := (sentMsgs evs).flatMap textBody

/-- C10: each chunk produced by the index.js splitting step contains no
newline character, so whenever the original body contains a newline the
concatenation of the sent chunks cannot equal the original body: the
split is not a partition of the string into contiguous substrings. -/
theorem chunking_drops_newlines (body : Str) (h4 : 4000 < body.length) :
    (∀ c ∈ Idx.jsChunks body, ∀ x ∈ c, x ≠ '\n') ∧
    ('\n' ∈ body → sentTextConcat (Idx.sendWhatsAppText body) ≠ body) := by
  have hchunk : ∀ c ∈ Idx.jsChunks body, ∀ x ∈ c, x ≠ '\n' := by
    intro c hc x hx hxeq
    have hlt := Idx.no_lt_of_mem_jsChunks body c hc x hx
    rw [hxeq] at hlt
    simp [isLT] at hlt
  refine ⟨hchunk, ?_⟩
  intro hnl heq
  by_cases hb : isBlank body
  · rw [sendWhatsAppText_blank body hb] at heq
    rw [← heq] at hnl
    simp [sentTextConcat, sentMsgs] at hnl
  · have hb' : isBlank body = false := by
      revert hb; cases isBlank body <;> simp
    rw [sendWhatsAppText_chunks body hb' h4] at heq
    have hmem : ('\n' : Char) ∈ sentTextConcat
        ((Idx.jsChunks body).flatMap
          (fun c => (if isBlank c then [] else [Event.send (WAMessage.text c) true])
            ++ [Event.delay 500])) := by
      rw [heq]; exact hnl
    rw [sentTextConcat, sentMsgs_flatMap] at hmem
    rcases List.mem_flatMap.mp hmem with ⟨m, hm, hxm⟩
    rcases List.mem_flatMap.mp hm with ⟨c, hcmem, hmc⟩
    by_cases hbc : isBlank c
    · simp [hbc, sentMsgs_append, sentMsgs] at hmc
    · simp [hbc, sentMsgs_append, sentMsgs] at hmc
      subst hmc
      exact hchunk c hcmem '\n' (by simpa [textBody] using hxm) rfl

/-- C10 witness: the theorem applied to a 4002-character body made of
4001 letters followed by a newline, with the hypotheses discharged by
evaluation. -/
theorem chunking_drops_newlines_witness :
    4000 < (List.replicate 4001 'a' ++ ['\n'] : Str).length ∧
    (∀ c ∈ Idx.jsChunks (List.replicate 4001 'a' ++ ['\n']), ∀ x ∈ c, x ≠ '\n') ∧
    ('\n' ∈ (List.replicate 4001 'a' ++ ['\n'] : Str) ∧
      sentTextConcat (Idx.sendWhatsAppText (List.replicate 4001 'a' ++ ['\n']))
        ≠ (List.replicate 4001 'a' ++ ['\n'] : Str)) := by
  have hlen : 4000 < (List.replicate 4001 'a' ++ ['\n'] : Str).length := by
    rw [List.length_append, List.length_replicate]
    decide
  have hnl : ('\n' : Char) ∈ (List.replicate 4001 'a' ++ ['\n'] : Str) := by
    exact List.mem_append.mpr (Or.inr (by decide))
  exact ⟨hlen, (chunking_drops_newlines _ hlen).1,
    hnl, (chunking_drops_newlines _ hlen).2 hnl⟩

/-! ## Claim C6 -/

/-- C6 counterexample: the part_000 pipeline does not skip a whitespace-only
text body — processMessage invokes the dialogue backend with the raw
three-space utterance (the backend here answers with an empty trace array,
so the backend call is the only event, and it should not have happened). -/
theorem blank_input_counterexample :
    isBlank (("   ").toList) = true ∧
    (P0.processMessage allOk (fun _ => VFOutcome.arr []) 0
        (InboundMessage.text (("   ").toList)) ⟨0, []⟩).log
      = [Event.vfCall 1 (("   ").toList)] := by
  constructor
  · decide
  · decide

/-- C6 amended: in the index.js pipeline, an inbound text event whose body
is empty or whitespace-only after trimming is skipped before any effect:
no typing indicator, no dialogue-backend call and no outbound send.  (The
part_000 variant lacks this check and forwards the raw whitespace body to
the backend, as the counterexample shows.) -/
theorem blank_input_skipped_amended (backend : VFOutcome) (now : Nat) (body : Str)
    (hb : isBlank body = true) :
    Idx.processMessage backend now (InboundMessage.text body) = [] := by
  simp [Idx.processMessage, Idx.extractInput, hb]

/-- C6 witness: the amended theorem applied to a three-space body. -/
theorem blank_input_skipped_amended_witness :
    isBlank (("   ").toList) = true ∧
    Idx.processMessage (VFOutcome.arr []) 0 (InboundMessage.text (("   ").toList)) = [] :=
  ⟨by decide, blank_input_skipped_amended (VFOutcome.arr []) 0 (("   ").toList) (by decide)⟩

/-! ## Claim C7 -/

/-- C7 counterexample: the part_000 dispatcher sends nothing at all for an
empty trace sequence — there is no fallback text. -/
theorem empty_traces_counterexample :
    (P0.processVoiceflowTraces allOk 0 [] ⟨0, []⟩).log = [] := by
  decide

/-- C7 amended: the index.js dispatcher sends exactly one fallback text —
the fixed no-response message — for an empty or non-array trace input.
(The part_000 dispatcher has no such guard and sends nothing for an empty
input, as the counterexample shows.) -/
theorem empty_traces_fallback_amended (now : Nat) (tr : Option (List Trace))
    (h : tr = none ∨ tr = some []) :
    Idx.processVoiceflowResponse now tr
      = [Event.send (WAMessage.text Idx.noResponseText) true] := by
  have hsend : Idx.sendWhatsAppText Idx.noResponseText
      = [Event.send (WAMessage.text Idx.noResponseText) true] := by
    rw [sendWhatsAppText_small Idx.noResponseText (by decide)]
    rw [if_neg (by decide)]
  rcases h with h | h <;> rw [h] <;> simpa [Idx.processVoiceflowResponse] using hsend

/-- C7 witness: the amended theorem applied to the non-array input and to
the empty trace list. -/
theorem empty_traces_fallback_amended_witness :
    Idx.processVoiceflowResponse 0 none
      = [Event.send (WAMessage.text Idx.noResponseText) true] ∧
    Idx.processVoiceflowResponse 0 (some [])
      = [Event.send (WAMessage.text Idx.noResponseText) true] :=
  ⟨empty_traces_fallback_amended 0 none (Or.inl rfl),
   empty_traces_fallback_amended 0 (some []) (Or.inr rfl)⟩

/-! ## Claim C8 -/

/-- C8 counterexample: in the part_000 dispatcher, an unsupported trace
followed by a text trace produces the text send with no inter-message
delay anywhere, although the claim requires a delay between every
consecutive pair of traces. -/
theorem delay_unconditional_counterexample :
    (P0.processVoiceflowTraces allOk 0
        [Trace.other, Trace.text (some (("hi").toList))] ⟨0, []⟩).log
      = [Event.send (WAMessage.text (("hi").toList)) true] := by
  decide

/-- Whether the part_000 dispatcher marks a trace as handled: its kind is
recognized and its payload guard passes.  When no send throws, this is
exactly the messageSent flag of the loop — note that it is true for a
cardV2 trace with a payload even when the flattened text is blank and
nothing is sent. -/
def handledFlag : Trace → Bool
  | Trace.text m => truthy m
  | Trace.speak m => truthy m
  | Trace.visual img _ => truthy img
  | Trace.carousel p => !p.cards.isEmpty
  | Trace.choice p => !p.buttons.isEmpty
  | Trace.cardV2 op => op.isSome
  | Trace.image url _ => truthy url
  | Trace.other => false

/-- The events of one trace processed alone from the empty log under the
all-success oracle. -/
def traceLog (now : Nat) (t : Trace) : List Event :=
  ((P0.traceStep allOk now t ⟨0, []⟩).1).log

/-- The delay placement the amended C8 describes: each trace contributes
its own events, followed by the fixed 1000 ms pause exactly when the
trace was handled and is not the last one. -/
def expectedLog (now : Nat) : List Trace → List Event
  | [] => []
  | [t] => traceLog now t
  | t :: rest =>
    traceLog now t ++ (if handledFlag t then [Event.delay 1000] else [])
      ++ expectedLog now rest

theorem traceStep_frame (now : Nat) (t : Trace) (s : S) :
    ((P0.traceStep allOk now t s).1).log = s.log ++ traceLog now t
    ∧ (P0.traceStep allOk now t s).2 = handledFlag t := by
  cases t with
  | text m =>
    by_cases hm : truthy m <;>
      simp [P0.traceStep, traceLog, hm, handledFlag, P0.sendWhatsAppMessage,
        attemptSend, allOk]
  | speak m =>
    by_cases hm : truthy m <;>
      simp [P0.traceStep, traceLog, hm, handledFlag, P0.sendWhatsAppMessage,
        attemptSend, allOk]
  | visual img cap =>
    by_cases hm : truthy img <;>
      simp [P0.traceStep, traceLog, hm, handledFlag, P0.sendWhatsAppMessage,
        attemptSend, allOk]
  | image url cap =>
    by_cases hm : truthy url <;>
      simp [P0.traceStep, traceLog, hm, handledFlag, P0.sendWhatsAppMessage,
        attemptSend, allOk]
  | other =>
    simp [P0.traceStep, traceLog, handledFlag]
  | cardV2 op =>
    cases op with
    | none => simp [P0.traceStep, traceLog, handledFlag]
    | some q =>
      by_cases hb : isBlank (P0.cardV2Text q) <;>
        simp [P0.traceStep, traceLog, handledFlag, P0.handleCardV2Message, hb,
          P0.sendWhatsAppMessage, attemptSend, allOk]
  | choice p =>
    by_cases hemp : p.buttons.isEmpty
    · simp [P0.traceStep, traceLog, handledFlag, hemp]
    · by_cases hlen : p.buttons.length ≤ 3 <;>
        simp [P0.traceStep, traceLog, handledFlag, hemp, P0.handleChoiceMessage,
          hlen, P0.sendWhatsAppMessage, attemptSend, allOk]
  | carousel p =>
    by_cases hemp : p.cards.isEmpty
    · simp [P0.traceStep, traceLog, handledFlag, hemp]
    · cases hc : p.cards with
      | nil => rw [hc] at hemp; simp at hemp
      | cons c1 tl =>
        cases tl with
        | nil =>
          by_cases himg : truthy c1.imageUrl <;>
            by_cases ht : truthy p.title <;>
              simp [P0.traceStep, traceLog, handledFlag, hemp, hc,
                P0.handleCarouselMessage, himg, ht, P0.sendWhatsAppMessage,
                attemptSend, emit, allOk]
        | cons c2 rest =>
          by_cases ht : truthy p.title <;>
            simp [P0.traceStep, traceLog, handledFlag, hemp, hc,
              P0.handleCarouselMessage, ht, P0.sendWhatsAppMessage,
              attemptSend, emit, allOk]

theorem pvtLoop_delay (now : Nat) :
    ∀ (traces : List Trace) (s : S),
      (P0.pvtLoop allOk now traces s).log = s.log ++ expectedLog now traces := by
  intro traces
  induction traces with
  | nil => intro s; simp [P0.pvtLoop, expectedLog]
  | cons t rest ih =>
    intro s
    rw [P0.pvtLoop]
    rcases traceStep_frame now t s with ⟨hlog, hflag⟩
    cases rest with
    | nil =>
      have hcond : ((P0.traceStep allOk now t s).2 && ! ([] : List Trace).isEmpty) = false := by
        simp
      rw [hcond]
      simp [P0.pvtLoop, expectedLog, hlog]
    | cons r2 rs =>
      by_cases hf : handledFlag t = true
      · have hcond : ((P0.traceStep allOk now t s).2 && !(r2 :: rs).isEmpty) = true := by
          simp [hflag, hf]
        rw [hcond]
        simp only [if_true]
        rw [ih]
        simp [emit, hlog, expectedLog, hf]
      · have hf' : handledFlag t = false := by
          revert hf; cases handledFlag t <;> simp
        have hcond : ((P0.traceStep allOk now t s).2 && !(r2 :: rs).isEmpty) = false := by
          simp [hflag, hf']
        rw [hcond]
        simp only [Bool.false_eq_true, if_false]
        rw [ih]
        simp [hlog, expectedLog, hf']

/-- C8 amended: in the part_000 dispatcher the fixed 1000 ms inter-message
delay is applied after a trace exactly when that trace was handled (its
kind recognized and its payload guard passed) and it is not the last
trace; a trace that is skipped — unsupported kind or missing payload —
is followed by no delay, so the delay is not unconditional.  (The
index.js dispatcher does pause unconditionally between consecutive
non-throwing traces; the part_000 lines named by the claim do not.) -/
theorem delay_after_handled_amended (now : Nat) (traces : List Trace) :
    (P0.processVoiceflowTraces allOk now traces ⟨0, []⟩).log
      = expectedLog now traces := by
  have h := pvtLoop_delay now traces ⟨0, []⟩
  simpa [P0.processVoiceflowTraces] using h

/-! ## Claim C9 -/

/-- C9 counterexample: when the image POST fails and no caption is
present, index.js sendWhatsAppImage sends no placeholder text — the
failed image attempt is the only event, and the user is left with no
message at all. -/
theorem image_fallback_counterexample :
    Idx.sendWhatsAppImage false (some (("http://x").toList)) []
      = [Event.send (WAMessage.image (("http://x").toList) []) false] := by
  decide

/-- C9 amended: when an image send fails at the platform, index.js
sendWhatsAppImage falls back to one text message carrying the caption
prefixed with the picture emoji — but only when a caption is present;
with no caption nothing further is sent, so a failed captionless image
send leaves the user without any message. -/
theorem image_fallback_amended (url caption : Str) (hu : url ≠ []) :
    (caption = [] →
      Idx.sendWhatsAppImage false (some url) caption
        = [Event.send (WAMessage.image url (Idx.capField caption)) false]) ∧
    (caption ≠ [] → (Idx.imgPrefix ++ caption).length ≤ 4000 →
      sentMsgs (Idx.sendWhatsAppImage false (some url) caption)
        = [WAMessage.image url (Idx.capField caption),
           WAMessage.text (Idx.imgPrefix ++ caption)]) := by
  have hun : url.isEmpty = false := by
    revert hu; cases url <;> simp
  constructor
  · intro hc
    subst hc
    simp [Idx.sendWhatsAppImage, hun]
  · intro hc hlen
    have hce : caption.isEmpty = false := by
      revert hc; cases caption <;> simp
    have hnb : isBlank (Idx.imgPrefix ++ caption) = false := by
      have hpre : Idx.imgPrefix.all isWS = false := by decide
      simp [isBlank, List.all_append, hpre]
    rw [Idx.sendWhatsAppImage]
    simp only [hun, Bool.false_eq_true, if_false, hce]
    rw [sendWhatsAppText_small _ hlen, if_neg (by simp [hnb])]
    simp [sentMsgs]

/-- C9 witness: the amended theorem applied to a concrete URL with the
empty caption and with a short caption, the hypotheses discharged by
evaluation. -/
theorem image_fallback_amended_witness :
    (("http://x").toList ≠ ([] : Str) ∧
      Idx.sendWhatsAppImage false (some (("http://x").toList)) []
        = [Event.send (WAMessage.image (("http://x").toList) (Idx.capField [])) false]) ∧
    ((("hello").toList ≠ ([] : Str)
        ∧ (Idx.imgPrefix ++ ("hello").toList).length ≤ 4000)
      ∧ sentMsgs (Idx.sendWhatsAppImage false (some (("http://x").toList)) (("hello").toList))
          = [WAMessage.image (("http://x").toList) (Idx.capField (("hello").toList)),
             WAMessage.text (Idx.imgPrefix ++ ("hello").toList)]) :=
  ⟨⟨by decide,
    (image_fallback_amended (("http://x").toList) [] (by decide)).1 rfl⟩,
   ⟨⟨by decide, by decide⟩,
    (image_fallback_amended (("http://x").toList) (("hello").toList) (by decide)).2
      (by decide) (by decide)⟩⟩
